import Mathlib

/-!
Verification development for the gitalytics fetch/cache/retry pipeline.

The definitions below are a shallow embedding of the TypeScript sources
`src/services/cacheService.ts`, `src/services/githubService.ts` and
`src/services/docsService.ts`.  Cached payloads are modelled as a small
JSON value type; the IndexedDB object store (keyPath `key`) is modelled
as an association list of entries with unique keys maintained by the
write operation; `Date.now()` values are integers (milliseconds since
epoch) passed explicitly; network responses are supplied by an oracle
(one response per issued call) so that the retry loop is a pure
function of the oracle.
-/

namespace Gitalytics

/-- JSON-like payload values stored in the cache and returned by the
network layer (the `data` field of a cache row). -/
inductive JsonVal where
  | null : JsonVal
  | bool (b : Bool) : JsonVal
  | num (n : Int) : JsonVal
  | str (s : String) : JsonVal
  | arr (elems : List JsonVal) : JsonVal
  | obj (fields : List (String × JsonVal)) : JsonVal

/-- Property access on a JS object literal: first binding of the key wins
(the object literals in the sources have pairwise distinct keys). -/
def fieldLookup (key : String) : List (String × JsonVal) → Option JsonVal
  | [] => none
  | (k, v) :: rest => if k == key then some v else fieldLookup key rest

/-- Property access `v.key` in JS: `undefined` (none) unless `v` is an
object carrying the field. -/
def jsonLookup (v : JsonVal) (key : String) : Option JsonVal :=
  match v with
  | .obj fields => fieldLookup key fields
  | _ => none

/-- JS truthiness of a JSON value (`if (cachedData)`, `if (data)`,
`filter(Boolean)`). -/
def jsTruthy : JsonVal → Bool
  | .null => false
  | .bool b => b
  | .num n => !(n == 0)
  | .str s => !(s == "")
  | .arr _ => true
  | .obj _ => true

def statusKey : String := "status"
def pathKey : String := "path"
def urlKey : String := "url"
def htmlUrlKey : String := "html_url"

/-- The test `cachedData.status === 404` from `fetchWithCache` and
`fetchDocFile`. -/
def jsonStatus404 (v : JsonVal) : Bool :=
  match jsonLookup v statusKey with
  | some (.num n) => n == 404
  | _ => false

/-! ## cacheService.ts -/

/-- `CACHE_DURATION = 15 * 60 * 1000` (15 minutes in milliseconds). -/
def CACHE_DURATION : Int := 15 * 60 * 1000

/-- A row of the `apiCache` object store: `key`, `data`, `timestamp`. -/
structure CacheEntry where
  key : String
  data : JsonVal
  timestamp : Int

/-- `CacheService.delete`: remove the row stored under `key`
(IndexedDB `store.delete(key)`). -/
def cacheDelete (store : List CacheEntry) (key : String) : List CacheEntry :=
  store.filter (fun e => !(e.key == key))

/-- `CacheService.get` on a healthy store: a miss resolves `null`; an
entry older than `CACHE_DURATION` is purged (`this.delete(key)`) and
resolves `null`; otherwise the stored `data` is resolved.  The second
component is the store after the call (the purge is the only mutation). -/
def cacheGet (store : List CacheEntry) (key : String) (now : Int) :
    Option JsonVal × List CacheEntry :=
  match store.find? (fun e => e.key == key) with
  | none => (none, store)
  | some entry =>
    if now - entry.timestamp > CACHE_DURATION then (none, cacheDelete store key)
    else (some entry.data, store)

/-- `CacheService.set`: `store.put` overwrites any row with the same key
and stamps the write with `Date.now()`. -/
def cacheSet (store : List CacheEntry) (key : String) (data : JsonVal) (now : Int) :
    List CacheEntry :=
  { key := key, data := data, timestamp := now } :: cacheDelete store key

/-- `CacheService.getStats`: count of rows and the rows themselves
(the reported byte size depends on JS `Blob` serialization and is not
modelled; no claim mentions it). -/
def getStats (store : List CacheEntry) : Nat × List CacheEntry :=
  (store.length, store)

/-! ## Rate-aware fetch executor: fetchWithCache (cacheService/githubService layer) -/

/-- Network responses seen by one attempt of the retry loop: a 403 with
the derived wait time `resetHint * 1000 - Date.now()` (0 when the reset
header is absent), a 404, another non-success status, or a parsed
success body. -/
inductive Response where
  | rateLimited (waitTime : Int) : Response
  | notFound : Response
  | httpError (status : Nat) : Response
  | success (body : JsonVal) : Response

/-- The message of the error thrown for a non-success status. -/
def httpErrMsg (status : Nat) : String :=
  "HTTP error! Status: " ++ toString status

/-- Terminal outcome of fetchWithCache: resolved data, the thrown 404
error, or the final transient error after retries. -/
inductive FetchOutcome where
  | ok (v : JsonVal) : FetchOutcome
  | notFoundErr : FetchOutcome
  | transientErr (msg : String) : FetchOutcome

/-- Result of a fetchWithCache call together with its observable side
effects: final store, number of network calls issued, and the awaited
sleep durations in order. -/
structure FetchResult where
  outcome : FetchOutcome
  store : List CacheEntry
  networkCalls : Nat
  delays : List Int

/-- The negative marker written by fetchWithCache on a 404 response: an
object with status 404 and the request url. -/
def negMarkerGithub (url : String) : JsonVal :=
  .obj [(statusKey, .num 404), (urlKey, .str url)]

/-- One pass of the retry loop of fetchWithCache (for i from 0 to
retries), with `remaining` loop iterations left (so i + remaining =
retries + 1 at every call), the last caught error, and the store
threaded through cache writes.  `resp j` is the response to the j-th
issued network call; call j happens at loop index j. -/
def fetchIter (url cacheKey : String) (resp : Nat → Response) (retries : Nat) (now : Int) :
    Nat → Nat → Option String → List CacheEntry → FetchResult
  | 0, _, lastErr, store =>
    { outcome := .transientErr (lastErr.getD ("")), store := store,
      networkCalls := 0, delays := [] }
  | remaining + 1, i, lastErr, store =>
    match resp i with
    | .rateLimited waitTime =>
      if waitTime > 0 ∧ i < retries then
        let r := fetchIter url cacheKey resp retries now remaining (i + 1) lastErr store
        { outcome := r.outcome, store := r.store, networkCalls := r.networkCalls + 1,
          delays := min waitTime 5000 :: r.delays }
      else
        if i < retries then
          let r := fetchIter url cacheKey resp retries now remaining (i + 1)
            (some (httpErrMsg 403)) store
          { outcome := r.outcome, store := r.store, networkCalls := r.networkCalls + 1,
            delays := ((i : Int) + 1) * 1000 :: r.delays }
        else
          { outcome := .transientErr (httpErrMsg 403), store := store,
            networkCalls := 1, delays := [] }
    | .notFound =>
      { outcome := .notFoundErr,
        store := cacheSet store cacheKey (negMarkerGithub url) now,
        networkCalls := 1, delays := [] }
    | .httpError status =>
      if i < retries then
        let r := fetchIter url cacheKey resp retries now remaining (i + 1)
          (some (httpErrMsg status)) store
        { outcome := r.outcome, store := r.store, networkCalls := r.networkCalls + 1,
          delays := ((i : Int) + 1) * 1000 :: r.delays }
      else
        { outcome := .transientErr (httpErrMsg status), store := store,
          networkCalls := 1, delays := [] }
    | .success body =>
      { outcome := .ok body, store := cacheSet store cacheKey body now,
        networkCalls := 1, delays := [] }

/-- fetchWithCache: consult the cache first (a truthy cached 404 marker
short-circuits to the thrown 404; any other truthy cached value is
returned without a network call; a falsy cached value is treated as a
miss), otherwise run the retry loop. -/
def fetchWithCache (store : List CacheEntry) (now : Int) (url cacheKey : String)
    (resp : Nat → Response) (retries : Nat) : FetchResult :=
  match cacheGet store cacheKey now with
  | (some d, store1) =>
    if jsTruthy d then
      if jsonStatus404 d then
        { outcome := .notFoundErr, store := store1, networkCalls := 0, delays := [] }
      else
        { outcome := .ok d, store := store1, networkCalls := 0, delays := [] }
    else
      fetchIter url cacheKey resp retries now (retries + 1) 0 none store1
  | (none, store1) =>
    fetchIter url cacheKey resp retries now (retries + 1) 0 none store1

/-! ## Batch scheduler: batchFetch (cacheService/githubService layer) -/

/-- The loop body of batchFetch: process the remaining items in slices
of batchSize; each item resolves to its value or to null when its fetch
rejected (the per-item catch); filter(Boolean) keeps only truthy
results; a 1000ms pause is awaited when more items remain.  `fuel`
bounds the loop (items.length at the top call; with positive batchSize
the loop consumes at least one item per iteration). -/
def batchFetchAux (worker : String → Option JsonVal) (batchSize : Nat) :
    Nat → List String → List JsonVal × List Int
  | 0, _ => ([], [])
  | _, [] => ([], [])
  | fuel + 1, item :: rest0 =>
    let items := item :: rest0
    let batch := items.take batchSize
    let rest := items.drop batchSize
    let kept := (batch.map worker).filterMap
      (fun o => match o with
        | some v => if jsTruthy v then some v else none
        | none => none)
    let r := batchFetchAux worker batchSize fuel rest
    (kept ++ r.1, if rest.isEmpty then r.2 else 1000 :: r.2)

/-- batchFetch from cacheService.ts: `worker` abstracts fetchFn,
returning none when the underlying promise rejects. -/
def batchFetch (items : List String) (worker : String → Option JsonVal) (batchSize : Nat) :
    List JsonVal × List Int :=
  batchFetchAux worker batchSize items.length items

/-! ## docsService.ts -/

/-- Importance tiers of a documentation descriptor. -/
inductive Importance where
  | critical : Importance
  | recommended : Importance
  | optional : Importance

/-- A documentation file descriptor (DocFile in docsService.ts). -/
structure DocFile where
  name : String
  description : String
  importance : Importance
  path : String
  alternativePaths : List String

/-- A probe outcome (DocCheckResult in docsService.ts; the source field
named exists is called fileExists here because exists is reserved). -/
structure DocCheckResult where
  file : DocFile
  fileExists : Bool
  url : Option JsonVal

/-- The fixed descriptor list documentationFiles from docsService.ts. -/
def documentationFiles : List DocFile := [
  { name := ("README"),
    description := ("Project overview, installation instructions, and basic usage"),
    importance := .critical, path := ("README.md"),
    alternativePaths := [("README"), ("README.txt"), ("Readme.md")] },
  { name := ("License"),
    description := ("License terms under which the software is distributed"),
    importance := .critical, path := ("LICENSE"),
    alternativePaths := [("LICENSE.md"), ("LICENSE.txt"), ("COPYING")] },
  { name := ("Contributing Guide"),
    description := ("Instructions for potential contributors"),
    importance := .recommended, path := ("CONTRIBUTING.md"),
    alternativePaths := [("CONTRIBUTING"), ("CONTRIBUTE.md"), ("docs/CONTRIBUTING.md")] },
  { name := ("Code of Conduct"),
    description := ("Expected behavior for project participants"),
    importance := .recommended, path := ("CODE_OF_CONDUCT.md"),
    alternativePaths := [("CODE-OF-CONDUCT.md"), ("docs/CODE_OF_CONDUCT.md")] },
  { name := ("Issue Templates"),
    description := ("Templates for reporting issues"),
    importance := .recommended, path := (".github/ISSUE_TEMPLATE"),
    alternativePaths := [(".github/ISSUE_TEMPLATE.md"), ("docs/ISSUE_TEMPLATE.md")] },
  { name := ("Pull Request Template"),
    description := ("Template for submitting pull requests"),
    importance := .recommended, path := (".github/PULL_REQUEST_TEMPLATE.md"),
    alternativePaths := [(".github/PULL_REQUEST_TEMPLATE"), ("docs/PULL_REQUEST_TEMPLATE.md")] },
  { name := ("Security Policy"),
    description := ("Instructions for reporting vulnerabilities"),
    importance := .recommended, path := ("SECURITY.md"),
    alternativePaths := [(".github/SECURITY.md"), ("docs/SECURITY.md")] },
  { name := ("Changelog"),
    description := ("History of changes to the project"),
    importance := .optional, path := ("CHANGELOG.md"),
    alternativePaths := [("CHANGELOG"), ("CHANGES.md"), ("HISTORY.md")] },
  { name := ("Support"),
    description := ("How to get support for the project"),
    importance := .optional, path := ("SUPPORT.md"),
    alternativePaths := [(".github/SUPPORT.md"), ("docs/SUPPORT.md")] },
  { name := ("Governance"),
    description := ("Project governance structure"),
    importance := .optional, path := ("GOVERNANCE.md"),
    alternativePaths := [("docs/GOVERNANCE.md"), ("governance/README.md")] }]

/-- The single network attempt made by fetchDocFile (no retry loop):
a 404, another non-success status, a thrown network failure with its
message, or a parsed success body. -/
inductive DocNet where
  | notFound : DocNet
  | httpError (status : Nat) : DocNet
  | netFail (msg : String) : DocNet
  | success (body : JsonVal) : DocNet

/-- Result of a fetchDocFile call: the resolved value (none for null),
the store after the call, and the number of network calls issued. -/
structure DocFetchResult where
  data : Option JsonVal
  store : List CacheEntry
  networkCalls : Nat

/-- The cache key used by the documentation prober. -/
def docCacheKey (baseUrl path : String) : String :=
  "doc:" ++ baseUrl ++ "/" ++ path

/-- The negative marker written by fetchDocFile on a 404: an object
with status 404 and the probed path. -/
def negMarkerDoc (path : String) : JsonVal :=
  .obj [(statusKey, .num 404), (pathKey, .str path)]

/-- Character-list core of strIncludes. -/
def charsInclude (pat : List Char) : List Char → Bool
  | [] => pat.isEmpty
  | c :: cs => pat.isPrefixOf (c :: cs) || charsInclude pat cs

/-- JS String.prototype.includes, used by the catch of fetchDocFile. -/
def strIncludes (s pat : String) : Bool :=
  charsInclude pat.toList s.toList

/-- The network half of fetchDocFile, entered on a cache miss (or a
falsy cached value): a 404 response is cached as a negative marker and
yields null; any other non-success throws and the catch caches a
negative marker only when the message contains the text 404, yielding
null either way; success is cached and returned. -/
def fetchDocNet (store1 : List CacheEntry) (key : String) (now : Int) (path : String) :
    DocNet → DocFetchResult
  | .notFound =>
    { data := none, store := cacheSet store1 key (negMarkerDoc path) now, networkCalls := 1 }
  | .httpError status =>
    if strIncludes (httpErrMsg status) ("404") then
      { data := none, store := cacheSet store1 key (negMarkerDoc path) now, networkCalls := 1 }
    else { data := none, store := store1, networkCalls := 1 }
  | .netFail msg =>
    if strIncludes msg ("404") then
      { data := none, store := cacheSet store1 key (negMarkerDoc path) now, networkCalls := 1 }
    else { data := none, store := store1, networkCalls := 1 }
  | .success body =>
    { data := some body, store := cacheSet store1 key body now, networkCalls := 1 }

/-- fetchDocFile from docsService.ts: a truthy cached 404 marker yields
null with no network call; any other truthy cached value is returned;
otherwise one network attempt is made. -/
def fetchDocFile (store : List CacheEntry) (now : Int) (baseUrl path : String)
    (net : DocNet) : DocFetchResult :=
  match cacheGet store (docCacheKey baseUrl path) now with
  | (some d, store1) =>
    if jsTruthy d then
      if jsonStatus404 d then { data := none, store := store1, networkCalls := 0 }
      else { data := some d, store := store1, networkCalls := 0 }
    else fetchDocNet store1 (docCacheKey baseUrl path) now path net
  | (none, store1) => fetchDocNet store1 (docCacheKey baseUrl path) now path net

/-- The fallback existence url built when the probe body carries no
truthy html_url field. -/
def fallbackUrl (repoFullName path : String) : String :=
  "https://github.com/" ++ repoFullName ++ "/blob/main/" ++ path

/-- The inner for-loop of a checkDocumentationFiles worker: try paths in
order and return the first truthy probe result with its path.  `probe`
abstracts the fetchDocFile call against the fixed baseUrl; none stands
for a null resolution. -/
def firstTruthyHit (probe : String → Option JsonVal) : List String → Option (String × JsonVal)
  | [] => none
  | p :: ps =>
    match probe p with
    | some d => if jsTruthy d then some (p, d) else firstTruthyHit probe ps
    | none => firstTruthyHit probe ps

/-- One worker of checkDocumentationFiles: probe the primary path then
the alternates; the first hit determines existence and the reported
url (the html_url of the body, or the fallback when it is falsy). -/
def checkDocFile (probe : String → Option JsonVal) (repoFullName : String)
    (file : DocFile) : DocCheckResult :=
  match firstTruthyHit probe (file.path :: file.alternativePaths) with
  | some (path, data) =>
    { file := file, fileExists := true,
      url := some (match jsonLookup data htmlUrlKey with
        | some v => if jsTruthy v then v else .str (fallbackUrl repoFullName path)
        | none => .str (fallbackUrl repoFullName path)) }
  | none => { file := file, fileExists := false, url := none }

/-- Fueled consecutive chunking; the reduce of checkDocumentationFiles
groups files by floor(index / 3), which yields exactly the consecutive
slices of size 3 (last slice possibly smaller). -/
def chunksOfAux {α : Type} (n : Nat) : Nat → List α → List (List α)
  | 0, _ => []
  | _, [] => []
  | fuel + 1, x :: rest0 =>
    let l := x :: rest0
    l.take n :: chunksOfAux n fuel (l.drop n)

/-- Consecutive chunks of size n. -/
def chunksOf {α : Type} (n : Nat) (l : List α) : List (List α) :=
  chunksOfAux n l.length l

/-- The for-of loop over batches in checkDocumentationFiles: the workers
of a batch settle together and their results are appended in batch
order; a 500ms pause is awaited after every batch except the last. -/
def docBatchLoop (worker : DocFile → DocCheckResult) :
    List (List DocFile) → List DocCheckResult × List Int
  | [] => ([], [])
  | [b] => (b.map worker, [])
  | b :: b2 :: rest =>
    let r := docBatchLoop worker (b2 :: rest)
    (b.map worker ++ r.1, 500 :: r.2)

/-- checkDocumentationFiles from docsService.ts over its fixed
descriptor list, batched three at a time. -/
def checkDocumentationFiles (probe : String → Option JsonVal) (repoFullName : String) :
    List DocCheckResult × List Int :=
  docBatchLoop (checkDocFile probe repoFullName) (chunksOf 3 documentationFiles)

/-- The tier weights of calculateDocScore. -/
def weights : Importance → Nat
  | .critical => 40
  | .recommended => 25
  | .optional => 10

/-- JS Math.round on the exact rational value of the expression:
floor of q + 1/2 (ties round up; all inputs here are nonnegative). -/
def jsRound (q : ℚ) : ℤ := ⌊q + 1/2⌋

/-- calculateDocScore from docsService.ts, with the arithmetic carried
out exactly over the rationals. -/
def calculateDocScore (results : List DocCheckResult) : ℤ :=
  if results.length = 0 then 0
  else
    let totalPossibleScore : Nat :=
      results.foldl (fun sum r => sum + weights r.file.importance) 0
    let actualScore : Nat :=
      results.foldl
        (fun sum r => sum + (if r.fileExists then weights r.file.importance else 0)) 0
    jsRound (((actualScore : ℚ) / (totalPossibleScore : ℚ)) * 100)

/-- The score formula as the claim states it: round of 100 times the sum
of tier weights of the descriptors that exist over the sum of tier
weights of all descriptors present in the list. -/
def specDocScore (results : List DocCheckResult) : ℤ :=
  jsRound (100 * ((results.filter (fun r => r.fileExists)).map
      (fun r => (weights r.file.importance : ℚ))).sum /
    ((results.map (fun r => (weights r.file.importance : ℚ))).sum))

/-- The negative-marker shape stated by the spec, for comparison with
the markers the code writes: an object whose status field is 404 and
which carries a path field. -/
def specNegMarkerShape (v : JsonVal) : Bool :=
  jsonStatus404 v && (jsonLookup v pathKey).isSome

/-! ## githubService.ts duration calculators -/

/-- An issue as consumed by calculateIssueResolutionTime; the two date
strings are represented by their parsed epoch-millisecond values. -/
structure IssueM where
  created_at : Int
  closed_at : Option Int

/-- A pull request as consumed by calculatePRMergeTime. -/
structure PullRequestM where
  created_at : Int
  merged_at : Option Int

/-- calculateIssueResolutionTime from githubService.ts: null when no
issue is closed, otherwise the mean resolution time in milliseconds
over the closed issues. -/
def calculateIssueResolutionTime (issues : List IssueM) : Option ℚ :=
  let closedIssues := issues.filter (fun i => i.closed_at.isSome)
  if closedIssues.length = 0 then none
  else
    let totalResolutionTime : Int :=
      closedIssues.foldl (fun total i => total + (i.closed_at.getD 0 - i.created_at)) 0
    some ((totalResolutionTime : ℚ) / (closedIssues.length : ℚ))

/-- calculatePRMergeTime from githubService.ts: null when no pull
request is merged, otherwise the mean merge time in milliseconds over
the merged pull requests. -/
def calculatePRMergeTime (prs : List PullRequestM) : Option ℚ :=
  let mergedPRs := prs.filter (fun p => p.merged_at.isSome)
  if mergedPRs.length = 0 then none
  else
    let totalMergeTime : Int :=
      mergedPRs.foldl (fun total p => total + (p.merged_at.getD 0 - p.created_at)) 0
    some ((totalMergeTime : ℚ) / (mergedPRs.length : ℚ))

/-! ## Storage-fault model of the cache operations -/

/-- Fault injection for the IndexedDB engine: whether the open, the
read request, the write request and the delete request succeed. -/
structure StorageEnv where
  openOk : Bool
  readOk : Bool
  writeOk : Bool
  deleteOk : Bool

/-- CacheService.init: the open-request error handler rejects the
promise with the request error. -/
def cacheInitOp (env : StorageEnv) : Except String Unit :=
  if env.openOk then .ok () else .error ("storage open failure")

/-- CacheService.get with fault injection: the awaited init propagates
its rejection; after a successful open, a read error resolves null. -/
def cacheGetOp (env : StorageEnv) (store : List CacheEntry) (key : String) (now : Int) :
    Except String (Option JsonVal × List CacheEntry) :=
  match cacheInitOp env with
  | .error e => .error e
  | .ok _ =>
    if env.readOk then .ok (cacheGet store key now)
    else .ok (none, store)

/-- CacheService.set with fault injection: the put-request error handler
rejects with the request error. -/
def cacheSetOp (env : StorageEnv) (store : List CacheEntry) (key : String) (data : JsonVal)
    (now : Int) : Except String (List CacheEntry) :=
  match cacheInitOp env with
  | .error e => .error e
  | .ok _ =>
    if env.writeOk then .ok (cacheSet store key data now)
    else .error ("storage write failure")

/-- CacheService.delete with fault injection: the delete-request error
handler logs and resolves, leaving the row in place. -/
def cacheDeleteOp (env : StorageEnv) (store : List CacheEntry) (key : String) :
    Except String (List CacheEntry) :=
  match cacheInitOp env with
  | .error e => .error e
  | .ok _ =>
    if env.deleteOk then .ok (cacheDelete store key)
    else .ok store

/-! ## clearAll -/

/-- Observable outcome of CacheService.clearAll: the cleared store, the
value the promise resolves with (none: the source returns a promise of
void and resolves with no value), and the success toast text. -/
structure ClearAllOutcome where
  newStore : List CacheEntry
  resolvedValue : Option Nat
  toastMsg : String

/-- CacheService.clearAll on a healthy store: count the rows, clear the
store unconditionally, toast the count, resolve with no value. -/
def clearAll (store : List CacheEntry) : ClearAllOutcome :=
  let count := store.length
  { newStore := [], resolvedValue := none,
    toastMsg := "Cleared " ++ toString count ++ " cached items successfully" }

/-! ## Theorems -/

/-- Helper: a list filtered by the negation of a predicate satisfied by one
of its members is strictly shorter. -/
theorem length_filter_not_lt_of_mem {α : Type} (p : α → Bool) (l : List α) (a : α)
    (ha : a ∈ l) (hpa : p a = true) :
    (l.filter (fun x => !(p x))).length < l.length := by
  induction l with
  | nil => cases ha
  | cons b l ih =>
    rcases List.mem_cons.mp ha with h | h
    · subst h
      simp only [List.filter_cons, hpa, Bool.not_true, List.length_cons]
      exact Nat.lt_succ_of_le (List.length_filter_le _ _)
    · by_cases hb : p b = true
      · simp only [List.filter_cons, hb, Bool.not_true, List.length_cons]
        exact Nat.lt_succ_of_le (Nat.le_of_lt (ih h))
      · simp only [List.filter_cons, Bool.not_eq_true] at hb
        simp only [List.filter_cons, hb, Bool.not_false, List.length_cons]
        exact Nat.succ_lt_succ (ih h)

/-- Helper: a left fold accumulating `f` over a list equals the starting
value plus the sum of the mapped list. -/
theorem foldl_add_eq {α M : Type} [AddMonoid M] (f : α → M) (l : List α) :
    ∀ n : M, l.foldl (fun s a => s + f a) n = n + (l.map f).sum := by
  induction l with
  | nil => intro n; simp
  | cons a l ih =>
    intro n
    simp only [List.foldl_cons, List.map_cons, List.sum_cons]
    rw [ih, add_assoc]

/-- Helper: summing an if-guarded map equals summing the map of the
filtered list. -/
theorem sum_map_ite {α M : Type} [AddMonoid M] (p : α → Bool) (f : α → M) (l : List α) :
    (l.map (fun a => if p a then f a else 0)).sum = ((l.filter p).map f).sum := by
  induction l with
  | nil => simp
  | cons a l ih =>
    by_cases h : p a = true
    · simp [h, ih]
    · simp only [Bool.not_eq_true] at h
      simp [h, ih]

/-- Helper: casting an integer list sum to the rationals commutes with
mapping the cast. -/
theorem cast_sum_map_int {α : Type} (f : α → Int) (l : List α) :
    (((l.map f).sum : Int) : ℚ) = (l.map (fun a => ((f a : Int) : ℚ))).sum := by
  induction l with
  | nil => simp
  | cons a l ih =>
    simp only [List.map_cons, List.sum_cons]
    push_cast
    rw [← ih]
    push_cast
    ring

/-- Helper: casting a natural list sum to the rationals commutes with
mapping the cast. -/
theorem cast_sum_map_nat {α : Type} (f : α → Nat) (l : List α) :
    (((l.map f).sum : Nat) : ℚ) = (l.map (fun a => ((f a : Nat) : ℚ))).sum := by
  induction l with
  | nil => simp
  | cons a l ih =>
    simp only [List.map_cons, List.sum_cons]
    push_cast
    rw [← ih]
    push_cast
    ring

/-- Helper: when every response is a non-404 non-success status, the
retry loop issues one network call per remaining iteration, sleeps the
linear backoff of 1000ms times the one-based attempt number after every
non-final attempt, writes nothing, and ends by throwing the error of
the final attempt. -/
theorem fetchIter_allHttpError (url key : String) (resp : Nat → Response) (retries : Nat)
    (now : Int) (s : Nat → Nat) (hresp : ∀ j, resp j = .httpError (s j)) :
    ∀ remaining i lastErr store, i + remaining = retries + 1 → remaining ≠ 0 →
      fetchIter url key resp retries now remaining i lastErr store =
        { outcome := .transientErr (httpErrMsg (s retries)), store := store,
          networkCalls := remaining,
          delays := (List.range' i (retries - i)).map (fun j => ((j : Int) + 1) * 1000) } := by
  intro remaining
  induction remaining with
  | zero => intro i lastErr store _ h0; exact absurd rfl h0
  | succ r ih =>
    intro i lastErr store hsum _
    by_cases h : i < retries
    · have hr : r ≠ 0 := by omega
      have hsum2 : (i + 1) + r = retries + 1 := by omega
      have hk : retries - i = (retries - (i + 1)) + 1 := by omega
      simp only [fetchIter, hresp i, if_pos h, ih (i + 1) (some (httpErrMsg (s i))) store hsum2 hr]
      rw [hk, List.range'_succ]
      simp
    · have hi : i = retries := by omega
      have hr : r = 0 := by omega
      subst hr
      rw [← hi]
      simp [fetchIter, hresp i, Nat.sub_self, if_neg (lt_irrefl i)]

/-- Helper: when every response is a 403 carrying the same positive
wait, the retry loop sleeps min(wait, 5000) before each retried
attempt, issues one call per remaining iteration, and ends by throwing
the 403 http error of the final attempt. -/
theorem fetchIter_allRateLimited (url key : String) (resp : Nat → Response) (retries : Nat)
    (now : Int) (w : Int) (hw : w > 0) (hresp : ∀ j, resp j = .rateLimited w) :
    ∀ remaining i lastErr store, i + remaining = retries + 1 → remaining ≠ 0 →
      fetchIter url key resp retries now remaining i lastErr store =
        { outcome := .transientErr (httpErrMsg 403), store := store,
          networkCalls := remaining,
          delays := List.replicate (retries - i) (min w 5000) } := by
  intro remaining
  induction remaining with
  | zero => intro i lastErr store _ h0; exact absurd rfl h0
  | succ r ih =>
    intro i lastErr store hsum _
    by_cases h : i < retries
    · have hr : r ≠ 0 := by omega
      have hsum2 : (i + 1) + r = retries + 1 := by omega
      have hk : retries - i = (retries - (i + 1)) + 1 := by omega
      simp only [fetchIter, hresp i, if_pos (And.intro hw h), ih (i + 1) lastErr store hsum2 hr]
      rw [hk, List.replicate_succ]
    · have hi : i = retries := by omega
      have hr : r = 0 := by omega
      subst hr
      rw [← hi]
      have hcond : ¬(w > 0 ∧ i < i) := fun hc => absurd hc.2 (lt_irrefl i)
      simp [fetchIter, hresp i, hcond, Nat.sub_self]

/-- C4 (amended).  Retry policy of the fetch executor on a cache miss:
with every response a non-404 non-success status, each non-final
attempt backs off the linearly increasing 1000ms times the one-based
attempt number, retries plus one calls are issued, and the call fails
with the last transient error; with every response a 403 carrying a
positive wait hint, each non-final attempt instead sleeps min(wait,
5000ms) before retrying, and exhaustion again fails with the last
error; a 404 response terminates the loop at once, right after the
negative cache write, with no delay and no further call. -/
theorem C4_retry_policy (store s1 : List CacheEntry) (now : Int) (url key : String)
    (resp : Nat → Response) (retries : Nat) (s : Nat → Nat) (w : Int)
    (hmiss : cacheGet store key now = (none, s1)) :
    ((∀ j, resp j = Response.httpError (s j)) →
      fetchWithCache store now url key resp retries =
        { outcome := .transientErr (httpErrMsg (s retries)), store := s1,
          networkCalls := retries + 1,
          delays := (List.range' 0 retries).map (fun j => ((j : Int) + 1) * 1000) }) ∧
    (w > 0 → (∀ j, resp j = Response.rateLimited w) →
      fetchWithCache store now url key resp retries =
        { outcome := .transientErr (httpErrMsg 403), store := s1,
          networkCalls := retries + 1,
          delays := List.replicate retries (min w 5000) }) ∧
    (resp 0 = Response.notFound →
      fetchWithCache store now url key resp retries =
        { outcome := .notFoundErr, store := cacheSet s1 key (negMarkerGithub url) now,
          networkCalls := 1, delays := [] }) := by
  refine ⟨?_, ?_, ?_⟩
  · intro hresp
    simp only [fetchWithCache, hmiss]
    have := fetchIter_allHttpError url key resp retries now s hresp (retries + 1) 0 none s1
      (by omega) (by omega)
    simpa using this
  · intro hw hresp
    simp only [fetchWithCache, hmiss]
    have := fetchIter_allRateLimited url key resp retries now w hw hresp (retries + 1) 0 none s1
      (by omega) (by omega)
    simpa using this
  · intro h404
    simp only [fetchWithCache, hmiss]
    simp [fetchIter, h404]

/-- C4 witness: on an empty store with every response status 500 and the
default two retries, three calls go out, the backoffs are 1000ms then
2000ms, and the final failure carries the status-500 message. -/
theorem C4_retry_policy_witness :
    (fetchWithCache [] 0 ("u") ("k") (fun _ => Response.httpError 500) 2).delays =
      [1000, 2000] ∧
    (fetchWithCache [] 0 ("u") ("k") (fun _ => Response.httpError 500) 2).networkCalls = 3 ∧
    (fetchWithCache [] 0 ("u") ("k") (fun _ => Response.notFound) 2).networkCalls = 1 := by
  have h := (C4_retry_policy [] [] 0 ("u") ("k") (fun _ => Response.httpError 500) 2
    (fun _ => 500) 1 rfl).1 (fun _ => rfl)
  have h2 := (C4_retry_policy [] [] 0 ("u") ("k") (fun _ => Response.notFound) 2
    (fun _ => 500) 1 rfl).2.2 rfl
  rw [h, h2]
  refine ⟨by decide, rfl, rfl⟩

/-- C4 counterexample: a 403 response carrying a positive reset wait is
a non-404, non-success response, yet with retries remaining the
executor sleeps min(wait, 5000) = 4000ms before each retry, not the
linear 1000ms then 2000ms backoff the claim states for every non-404
non-success response. -/
theorem C4_counterexample :
    (fetchWithCache [] 0 ("u") ("k") (fun _ => Response.rateLimited 4000) 2).delays =
      [4000, 4000] ∧
    ([4000, 4000] : List Int) ≠ [1000, 2000] := by
  constructor
  · rfl
  · decide

/-- C2.  Lazy expiry with purge-on-read: for a cache row stored under
`key` with write time `T`, a `get` at time `t` with `t - T` at most the
15-minute `CACHE_DURATION` resolves the stored value and leaves the
store unchanged; a `get` with `t - T` beyond the duration resolves
absent and deletes the row, so the key is no longer found and a
subsequent `getStats` reports a strictly smaller count. -/
theorem C2_lazy_expiry (store : List CacheEntry) (key : String) (data : JsonVal) (T t : Int)
    (hfind : store.find? (fun e => e.key == key) =
      some { key := key, data := data, timestamp := T }) :
    (t - T ≤ CACHE_DURATION → cacheGet store key t = (some data, store)) ∧
    (t - T > CACHE_DURATION →
      cacheGet store key t = (none, cacheDelete store key) ∧
      (cacheDelete store key).find? (fun e => e.key == key) = none ∧
      (getStats (cacheDelete store key)).1 < (getStats store).1) := by
  constructor
  · intro hle
    have hnot : ¬(t - T > CACHE_DURATION) := not_lt.mpr hle
    simp [cacheGet, hfind, hnot]
  · intro hgt
    refine ⟨by simp [cacheGet, hfind, hgt], ?_, ?_⟩
    · rw [List.find?_eq_none]
      intro x hx
      have := (List.mem_filter.mp hx).2
      simp only [Bool.not_eq_true'] at this
      simp [this]
    · have hmem := List.mem_of_find?_eq_some hfind
      have hp := List.find?_some hfind
      exact length_filter_not_lt_of_mem _ store _ hmem hp

/-- C2 witness: a concrete store with one row written at time 0; reading
at 100ms hits, reading at 1000000ms (past the 900000ms duration) purges. -/
theorem C2_lazy_expiry_witness :
    (cacheGet [{ key := ("k"), data := JsonVal.num 1, timestamp := 0 }] ("k") 100 =
      (some (JsonVal.num 1), [{ key := ("k"), data := JsonVal.num 1, timestamp := 0 }])) ∧
    (cacheGet [{ key := ("k"), data := JsonVal.num 1, timestamp := 0 }] ("k") 1000000 =
      (none, []) ∧
     (getStats (cacheDelete [{ key := ("k"), data := JsonVal.num 1, timestamp := 0 }] ("k"))).1 <
       (getStats [{ key := ("k"), data := JsonVal.num 1, timestamp := 0 }]).1) := by
  have h := C2_lazy_expiry [{ key := ("k"), data := JsonVal.num 1, timestamp := 0 }]
    ("k") (JsonVal.num 1) 0 100 rfl
  have h2 := C2_lazy_expiry [{ key := ("k"), data := JsonVal.num 1, timestamp := 0 }]
    ("k") (JsonVal.num 1) 0 1000000 rfl
  refine ⟨h.1 (by decide), ?_, ?_⟩
  · have := (h2.2 (by decide)).1
    simpa [cacheDelete] using this
  · exact (h2.2 (by decide)).2.2

/-- Helper: the negative marker of the documentation prober is truthy
and recognized by the status-404 test. -/
theorem negMarkerDoc_recognized (path : String) :
    jsTruthy (negMarkerDoc path) = true ∧ jsonStatus404 (negMarkerDoc path) = true := by
  constructor
  · rfl
  · simp [jsonStatus404, negMarkerDoc, jsonLookup, fieldLookup, statusKey]

/-- Helper: the negative marker of the fetch executor is truthy and
recognized by the status-404 test. -/
theorem negMarkerGithub_recognized (url : String) :
    jsTruthy (negMarkerGithub url) = true ∧ jsonStatus404 (negMarkerGithub url) = true := by
  constructor
  · rfl
  · simp [jsonStatus404, negMarkerGithub, jsonLookup, fieldLookup, statusKey]

/-- C1.  Negative-result round-trip.  Part one: a non-expired cached
negative marker (payload with status 404) makes fetchWithCache fail
with the not-found outcome and zero network calls.  Part two: the same
for fetchDocFile, which resolves null with zero network calls.  Part
three: probing a missing path writes the negative marker with one
network call, and probing again within the time-to-live yields the same
null outcome with zero additional network calls, while probing after
the time-to-live finds the marker expired.  Part four: the staleness
test of the cache read depends only on the timestamp, never on the
payload, so negative markers are subject to exactly the same 15-minute
expiry as positive entries. -/
theorem C1_negative_roundtrip (store s1 store0 : List CacheEntry) (now t0 t1 t2 : Int)
    (url key baseUrl path : String) (resp : Nat → Response) (retries : Nat)
    (d : JsonVal) (net : DocNet) :
    (cacheGet store key now = (some d, s1) → jsTruthy d = true → jsonStatus404 d = true →
      fetchWithCache store now url key resp retries =
        { outcome := .notFoundErr, store := s1, networkCalls := 0, delays := [] }) ∧
    (cacheGet store (docCacheKey baseUrl path) now = (some d, s1) → jsTruthy d = true →
      jsonStatus404 d = true →
      fetchDocFile store now baseUrl path net =
        { data := none, store := s1, networkCalls := 0 }) ∧
    (cacheGet store0 (docCacheKey baseUrl path) t0 = (none, store0) →
      (fetchDocFile store0 t0 baseUrl path DocNet.notFound =
        { data := none,
          store := cacheSet store0 (docCacheKey baseUrl path) (negMarkerDoc path) t0,
          networkCalls := 1 } ∧
       (t1 - t0 ≤ CACHE_DURATION →
         fetchDocFile (cacheSet store0 (docCacheKey baseUrl path) (negMarkerDoc path) t0)
             t1 baseUrl path net =
           { data := none,
             store := cacheSet store0 (docCacheKey baseUrl path) (negMarkerDoc path) t0,
             networkCalls := 0 }) ∧
       (t2 - t0 > CACHE_DURATION →
         (cacheGet (cacheSet store0 (docCacheKey baseUrl path) (negMarkerDoc path) t0)
             (docCacheKey baseUrl path) t2).1 = none))) ∧
    (∀ key2 data T, store.find? (fun e => e.key == key2) =
        some { key := key2, data := data, timestamp := T } →
      (cacheGet store key2 t2).1 =
        if t2 - T > CACHE_DURATION then none else some data) := by
  refine ⟨?_, ?_, ?_, ?_⟩
  · intro hhit htr h404
    simp [fetchWithCache, hhit, htr, h404]
  · intro hhit htr h404
    simp [fetchDocFile, hhit, htr, h404]
  · intro hmiss
    have hfind : (cacheSet store0 (docCacheKey baseUrl path) (negMarkerDoc path) t0).find?
        (fun e => e.key == docCacheKey baseUrl path) =
        some { key := docCacheKey baseUrl path, data := negMarkerDoc path, timestamp := t0 } :=
      List.find?_cons_of_pos _ (by simp)
    refine ⟨by simp [fetchDocFile, hmiss, fetchDocNet], ?_, ?_⟩
    · intro hle
      have hnot : ¬(t1 - t0 > CACHE_DURATION) := not_lt.mpr hle
      simp [fetchDocFile, cacheGet, hfind, hnot, (negMarkerDoc_recognized path).1,
        (negMarkerDoc_recognized path).2]
    · intro hgt
      simp [cacheGet, hfind, hgt]
  · intro key2 data T hfind
    by_cases hc : t2 - T > CACHE_DURATION
    · simp [cacheGet, hfind, hc]
    · simp [cacheGet, hfind, hc]

/-- C1 witness: a store holding a fresh negative marker under both the
executor key and a documentation key short-circuits both readers with
zero network calls; a fresh probe of an empty store caches the marker,
a re-probe at 100ms is again null with zero calls, and at 1000000ms the
marker is expired exactly as a positive entry would be. -/
theorem C1_negative_roundtrip_witness :
    (fetchWithCache
        [{ key := ("k"), data := negMarkerDoc ("p"), timestamp := 0 },
         { key := docCacheKey ("b") ("p"), data := negMarkerDoc ("p"), timestamp := 0 }]
        0 ("u") ("k") (fun _ => Response.success (JsonVal.num 1)) 2 =
      { outcome := .notFoundErr,
        store :=
          [{ key := ("k"), data := negMarkerDoc ("p"), timestamp := 0 },
           { key := docCacheKey ("b") ("p"), data := negMarkerDoc ("p"), timestamp := 0 }],
        networkCalls := 0, delays := [] }) ∧
    (fetchDocFile
        [{ key := ("k"), data := negMarkerDoc ("p"), timestamp := 0 },
         { key := docCacheKey ("b") ("p"), data := negMarkerDoc ("p"), timestamp := 0 }]
        0 ("b") ("p") (DocNet.success (JsonVal.num 1)) =
      { data := none,
        store :=
          [{ key := ("k"), data := negMarkerDoc ("p"), timestamp := 0 },
           { key := docCacheKey ("b") ("p"), data := negMarkerDoc ("p"), timestamp := 0 }],
        networkCalls := 0 }) ∧
    (fetchDocFile [] 0 ("b") ("p") DocNet.notFound =
      { data := none, store := cacheSet [] (docCacheKey ("b") ("p")) (negMarkerDoc ("p")) 0,
        networkCalls := 1 }) ∧
    (fetchDocFile (cacheSet [] (docCacheKey ("b") ("p")) (negMarkerDoc ("p")) 0)
        100 ("b") ("p") (DocNet.success (JsonVal.num 1)) =
      { data := none, store := cacheSet [] (docCacheKey ("b") ("p")) (negMarkerDoc ("p")) 0,
        networkCalls := 0 }) ∧
    ((cacheGet (cacheSet [] (docCacheKey ("b") ("p")) (negMarkerDoc ("p")) 0)
        (docCacheKey ("b") ("p")) 1000000).1 = none) ∧
    ((cacheGet
        [{ key := ("k"), data := negMarkerDoc ("p"), timestamp := 0 },
         { key := docCacheKey ("b") ("p"), data := negMarkerDoc ("p"), timestamp := 0 }]
        ("k") 1000000).1 = none) := by
  have h := C1_negative_roundtrip
    [{ key := ("k"), data := negMarkerDoc ("p"), timestamp := 0 },
     { key := docCacheKey ("b") ("p"), data := negMarkerDoc ("p"), timestamp := 0 }]
    [{ key := ("k"), data := negMarkerDoc ("p"), timestamp := 0 },
     { key := docCacheKey ("b") ("p"), data := negMarkerDoc ("p"), timestamp := 0 }]
    [] 0 0 100 1000000 ("u") ("k") ("b") ("p")
    (fun _ => Response.success (JsonVal.num 1)) 2 (negMarkerDoc ("p"))
    (DocNet.success (JsonVal.num 1))
  have h3 := h.2.2.1 rfl
  refine ⟨h.1 rfl rfl (by rfl), h.2.1 rfl rfl (by rfl), h3.1, h3.2.1 (by decide),
    h3.2.2 (by decide), ?_⟩
  have h4 := h.2.2.2 ("k") (negMarkerDoc ("p")) 0 rfl
  rw [h4, if_pos (by decide : (1000000 : Int) - 0 > CACHE_DURATION)]

/-- C6 (amended).  Negative-marker shape: both writers record status 404
plus an identifier of the probed resource, but under different field
names.  On a 404 the fetch executor stores the full request url under
the field named url (and carries no path field), while the
documentation prober stores the probed path under the field named
path; only the latter matches the path-carrying shape the spec
describes. -/
theorem C6_marker_shape (store s1 : List CacheEntry) (now : Int)
    (url key baseUrl path : String) (resp : Nat → Response) (retries : Nat)
    (hmiss : cacheGet store key now = (none, s1))
    (h404 : resp 0 = Response.notFound)
    (hmiss2 : cacheGet store (docCacheKey baseUrl path) now = (none, store)) :
    ((fetchWithCache store now url key resp retries).store =
        cacheSet s1 key (negMarkerGithub url) now ∧
      jsonStatus404 (negMarkerGithub url) = true ∧
      jsonLookup (negMarkerGithub url) urlKey = some (.str url) ∧
      jsonLookup (negMarkerGithub url) pathKey = none) ∧
    ((fetchDocFile store now baseUrl path DocNet.notFound).store =
        cacheSet store (docCacheKey baseUrl path) (negMarkerDoc path) now ∧
      jsonStatus404 (negMarkerDoc path) = true ∧
      jsonLookup (negMarkerDoc path) pathKey = some (.str path) ∧
      specNegMarkerShape (negMarkerDoc path) = true ∧
      specNegMarkerShape (negMarkerGithub url) = false) := by
  refine ⟨⟨?_, (negMarkerGithub_recognized url).2, ?_, ?_⟩,
    ⟨?_, (negMarkerDoc_recognized path).2, ?_, ?_, ?_⟩⟩
  · simp only [fetchWithCache, hmiss]
    simp [fetchIter, h404]
  · rfl
  · rfl
  · simp [fetchDocFile, hmiss2, fetchDocNet]
  · rfl
  · rfl
  · rfl

/-- C6 witness: concrete miss-then-404 runs of both writers, showing the
executor marker carries a url field and no path field while the prober
marker carries the path field. -/
theorem C6_marker_shape_witness :
    (fetchWithCache [] 0 ("https://api.github.com/repos/o/r") ("repo:o/r")
        (fun _ => Response.notFound) 2).store =
      cacheSet [] ("repo:o/r") (negMarkerGithub ("https://api.github.com/repos/o/r")) 0 ∧
    (fetchDocFile [] 0 ("b") ("p") DocNet.notFound).store =
      cacheSet [] (docCacheKey ("b") ("p")) (negMarkerDoc ("p")) 0 ∧
    specNegMarkerShape (negMarkerGithub ("https://api.github.com/repos/o/r")) = false := by
  have h := C6_marker_shape [] [] 0 ("https://api.github.com/repos/o/r") ("repo:o/r")
    ("b") ("p") (fun _ => Response.notFound) 2 rfl rfl rfl
  exact ⟨h.1.1, h.2.1, h.2.2.2.2.2⟩

/-- C6 counterexample: the negative entry the fetch executor writes on a
404 carries the request url under a field named url and has no path
field, so it does not have the path-carrying sentinel shape the claim
asserts for every negative entry written by the system. -/
theorem C6_counterexample :
    (fetchWithCache [] 0 ("https://api.github.com/repos/o/r") ("repo:o/r")
        (fun _ => Response.notFound) 2).store =
      [{ key := ("repo:o/r"),
         data := negMarkerGithub ("https://api.github.com/repos/o/r"), timestamp := 0 }] ∧
    specNegMarkerShape (negMarkerGithub ("https://api.github.com/repos/o/r")) = false := by
  constructor
  · rfl
  · rfl

/-- Helper: with positive batch size and enough fuel, the batch loop
returns exactly the truthy-filtered worker results in input order. -/
theorem batchFetchAux_results (worker : String → Option JsonVal) (batchSize : Nat)
    (hbs : 0 < batchSize) :
    ∀ fuel items, items.length ≤ fuel →
      (batchFetchAux worker batchSize fuel items).1 =
        (items.map worker).filterMap
          (fun o => match o with
            | some v => if jsTruthy v then some v else none
            | none => none) := by
  intro fuel
  induction fuel with
  | zero =>
    intro items h
    have : items = [] := List.eq_nil_of_length_eq_zero (Nat.le_zero.mp h)
    subst this
    rfl
  | succ n ih =>
    intro items h
    match items with
    | [] => rfl
    | x :: rest0 =>
      have hlen : ((x :: rest0).drop batchSize).length ≤ n := by
        rw [List.length_drop, List.length_cons]
        simp only [List.length_cons] at h
        omega
      simp only [batchFetchAux, ih ((x :: rest0).drop batchSize) hlen]
      conv_rhs => rw [← List.take_append_drop batchSize (x :: rest0)]
      rw [List.map_append, List.filterMap_append]

/-- Helper: a nonempty list chunks into at least one slice. -/
theorem chunksOfAux_length_pos {α : Type} (n : Nat) :
    ∀ fuel (l : List α), l ≠ [] → l.length ≤ fuel →
      0 < (chunksOfAux n fuel l).length := by
  intro fuel l hne hlen
  match fuel, l with
  | _, [] => exact absurd rfl hne
  | 0, x :: r => simp at hlen
  | m + 1, x :: r => simp [chunksOfAux]

/-- Helper: with positive batch size and enough fuel, the pause list of
the batch loop holds one 1000ms entry per slice boundary: one fewer
than the number of slices. -/
theorem batchFetchAux_delays (worker : String → Option JsonVal) (batchSize : Nat)
    (hbs : 0 < batchSize) :
    ∀ fuel items, items.length ≤ fuel →
      (batchFetchAux worker batchSize fuel items).2 =
        List.replicate ((chunksOfAux batchSize fuel items).length - 1) 1000 := by
  intro fuel
  induction fuel with
  | zero =>
    intro items h
    have : items = [] := List.eq_nil_of_length_eq_zero (Nat.le_zero.mp h)
    subst this
    rfl
  | succ n ih =>
    intro items h
    match items with
    | [] => rfl
    | x :: rest0 =>
      have hlen : ((x :: rest0).drop batchSize).length ≤ n := by
        rw [List.length_drop, List.length_cons]
        simp only [List.length_cons] at h
        omega
      by_cases hrest : (x :: rest0).drop batchSize = []
      · have bnil : ∀ fuel, batchFetchAux worker batchSize fuel ([] : List String) =
            ([], []) := by
          intro fuel; cases fuel <;> rfl
        have cnil : ∀ fuel, chunksOfAux batchSize fuel ([] : List String) = [] := by
          intro fuel; cases fuel <;> rfl
        simp [batchFetchAux, chunksOfAux, hrest, bnil, cnil]
      · have hpos := chunksOfAux_length_pos batchSize n _ hrest hlen
        have hie : ((x :: rest0).drop batchSize).isEmpty = false :=
          List.isEmpty_eq_false.mpr hrest
        have hL : (chunksOfAux batchSize n ((x :: rest0).drop batchSize)).length - 1 + 1 =
            (chunksOfAux batchSize n ((x :: rest0).drop batchSize)).length := by
          omega
        simp only [batchFetchAux, chunksOfAux, ih _ hlen, hie, Bool.false_eq_true,
          if_false, List.length_cons, Nat.add_sub_cancel]
        conv_rhs => rw [← hL, List.replicate_succ]

/-- Helper: with positive chunk size and enough fuel, joining the chunks
restores the original list. -/
theorem chunksOfAux_join {α : Type} (n : Nat) (hn : 0 < n) :
    ∀ fuel (l : List α), l.length ≤ fuel → (chunksOfAux n fuel l).flatten = l := by
  intro fuel
  induction fuel with
  | zero =>
    intro l h
    have : l = [] := List.eq_nil_of_length_eq_zero (Nat.le_zero.mp h)
    subst this
    rfl
  | succ m ih =>
    intro l h
    match l with
    | [] => rfl
    | x :: r =>
      have hlen : ((x :: r).drop n).length ≤ m := by
        rw [List.length_drop, List.length_cons]
        simp only [List.length_cons] at h
        omega
      simp only [chunksOfAux, List.flatten_cons, ih _ hlen]
      exact List.take_append_drop n (x :: r)

/-- Helper: the documentation batch loop appends the worker results of
the batches in order. -/
theorem docBatchLoop_results (worker : DocFile → DocCheckResult) :
    ∀ bs : List (List DocFile), (docBatchLoop worker bs).1 = bs.flatten.map worker := by
  intro bs
  induction bs with
  | nil => rfl
  | cons b rest ih =>
    cases rest with
    | nil => simp [docBatchLoop]
    | cons b2 rest2 =>
      simp only [docBatchLoop, ih, List.flatten_cons, List.map_append]

/-- Helper: the documentation batch loop pauses 500ms after every batch
except the last. -/
theorem docBatchLoop_delays (worker : DocFile → DocCheckResult) :
    ∀ bs : List (List DocFile),
      (docBatchLoop worker bs).2 = List.replicate (bs.length - 1) 500 := by
  intro bs
  induction bs with
  | nil => rfl
  | cons b rest ih =>
    cases rest with
    | nil => rfl
    | cons b2 rest2 =>
      simp only [docBatchLoop, ih, List.length_cons, Nat.add_sub_cancel]
      rfl

/-- C3 (amended).  Batch ordering and failure isolation: the batched
runner never rejects; it returns, in input order (group-major, then
intra-group order), exactly the values of the items whose worker
produced a truthy value — a rejecting worker does not abort its
siblings, but its slot is dropped from the result list rather than kept
as a null entry, so the result length is the number of truthy
successes, not the input length.  The documentation prober, which does
not filter, returns one result per descriptor in input order. -/
theorem C3_batch_isolation (items : List String) (worker : String → Option JsonVal)
    (batchSize : Nat) (hbs : 0 < batchSize) (probe : String → Option JsonVal)
    (repoFullName : String) :
    (batchFetch items worker batchSize).1 =
      (items.map worker).filterMap
        (fun o => match o with
          | some v => if jsTruthy v then some v else none
          | none => none) ∧
    (checkDocumentationFiles probe repoFullName).1 =
      documentationFiles.map (checkDocFile probe repoFullName) ∧
    (checkDocumentationFiles probe repoFullName).1.length = documentationFiles.length := by
  have hjoin : (chunksOf 3 documentationFiles).flatten = documentationFiles :=
    chunksOfAux_join 3 (by decide) documentationFiles.length documentationFiles le_rfl
  have hres : (checkDocumentationFiles probe repoFullName).1 =
      documentationFiles.map (checkDocFile probe repoFullName) := by
    rw [checkDocumentationFiles, docBatchLoop_results, hjoin]
  refine ⟨batchFetchAux_results worker batchSize hbs items.length items le_rfl, hres, ?_⟩
  rw [hres, List.length_map]

/-- C3 witness: in a four-item batch whose third worker rejects, the
call resolves with the three successes in input order, and the
documentation prober reports one result per descriptor. -/
theorem C3_batch_isolation_witness :
    (batchFetch [("a"), ("b"), ("c"), ("d")]
        (fun x => if x == ("c") then none else some (JsonVal.str x)) 3).1 =
      [JsonVal.str ("a"), JsonVal.str ("b"), JsonVal.str ("d")] ∧
    (checkDocumentationFiles (fun _ => none) ("o/r")).1.length =
      documentationFiles.length := by
  have h := C3_batch_isolation [("a"), ("b"), ("c"), ("d")]
    (fun x => if x == ("c") then none else some (JsonVal.str x)) 3 (by decide)
    (fun _ => none) ("o/r")
  refine ⟨?_, h.2.2⟩
  rw [h.1]
  rfl

/-- C3 counterexample: with a single item whose worker rejects, the
batched runner returns an empty result list, so the result length does
not equal the input length as the claim states. -/
theorem C3_counterexample :
    (batchFetch [("a")] (fun _ => none) 3).1.length ≠ ([("a")] : List String).length := by
  decide

/-- C5 (amended).  Inter-batch pacing: the batched runner batchFetch
pauses exactly 1000ms (not the 500ms the claim states) between
successive groups and never after the last group — its pause list is
one 1000ms entry per group boundary; the documentation prober is the
path that paces at 500ms, pausing after each of its first three batches
of three descriptors and not after the fourth. -/
theorem C5_pacing (items : List String) (worker : String → Option JsonVal)
    (batchSize : Nat) (hbs : 0 < batchSize) (probe : String → Option JsonVal)
    (repoFullName : String) :
    (batchFetch items worker batchSize).2 =
      List.replicate ((chunksOf batchSize items).length - 1) 1000 ∧
    (checkDocumentationFiles probe repoFullName).2 = [500, 500, 500] := by
  constructor
  · exact batchFetchAux_delays worker batchSize hbs items.length items le_rfl
  · rw [checkDocumentationFiles, docBatchLoop_delays]
    rfl

/-- C5 witness: four items in groups of three pause once, for 1000ms;
the documentation prober pauses 500ms after each of its first three
batches. -/
theorem C5_pacing_witness :
    (batchFetch [("a"), ("b"), ("c"), ("d")] (fun _ => some (JsonVal.num 1)) 3).2 = [1000] ∧
    (checkDocumentationFiles (fun _ => none) ("o/r")).2 = [500, 500, 500] := by
  have h := C5_pacing [("a"), ("b"), ("c"), ("d")] (fun _ => some (JsonVal.num 1)) 3
    (by decide) (fun _ => none) ("o/r")
  refine ⟨?_, h.2⟩
  rw [h.1]
  rfl

/-- C5 counterexample: the batched runner pauses 1000ms between groups,
not the 500ms interBatchDelay the claim states. -/
theorem C5_counterexample :
    (batchFetch [("a"), ("b"), ("c"), ("d")] (fun _ => some (JsonVal.num 1)) 3).2 = [1000] ∧
    ([1000] : List Int) ≠ [500] := by
  constructor
  · rfl
  · decide

/-- C7 (amended).  Storage faults: when the backing store fails to
open, init rejects, and get, set and delete all propagate that
rejection through their awaited init rather than resolving; after a
successful open, a read error makes get resolve an absent result and a
delete error makes delete resolve leaving the store unchanged, but a
write error makes set reject.  Rejections are absorbed at the ui-facing
fetch boundary, not inside the cache operations themselves. -/
theorem C7_storage_faults (env : StorageEnv) (store : List CacheEntry) (key : String)
    (data : JsonVal) (now : Int) :
    (env.openOk = false →
      cacheInitOp env = .error ("storage open failure") ∧
      cacheGetOp env store key now = .error ("storage open failure") ∧
      cacheSetOp env store key data now = .error ("storage open failure") ∧
      cacheDeleteOp env store key = .error ("storage open failure")) ∧
    (env.openOk = true → env.readOk = false →
      cacheGetOp env store key now = .ok (none, store)) ∧
    (env.openOk = true → env.writeOk = false →
      cacheSetOp env store key data now = .error ("storage write failure")) ∧
    (env.openOk = true → env.deleteOk = false →
      cacheDeleteOp env store key = .ok store) := by
  refine ⟨?_, ?_, ?_, ?_⟩
  · intro h
    refine ⟨?_, ?_, ?_, ?_⟩ <;>
      simp [cacheInitOp, cacheGetOp, cacheSetOp, cacheDeleteOp, h]
  · intro h hr
    simp [cacheInitOp, cacheGetOp, h, hr]
  · intro h hw
    simp [cacheInitOp, cacheSetOp, h, hw]
  · intro h hd
    simp [cacheInitOp, cacheDeleteOp, h, hd]

/-- C7 witness: concrete fault scenarios — an open failure rejects get,
a read error after a successful open resolves an absent result, a write
error rejects set, a delete error resolves leaving the store. -/
theorem C7_storage_faults_witness :
    cacheGetOp { openOk := false, readOk := true, writeOk := true, deleteOk := true }
        [] ("k") 0 = .error ("storage open failure") ∧
    cacheGetOp { openOk := true, readOk := false, writeOk := true, deleteOk := true }
        [] ("k") 0 = .ok (none, []) ∧
    cacheSetOp { openOk := true, readOk := true, writeOk := false, deleteOk := true }
        [] ("k") JsonVal.null 0 = .error ("storage write failure") ∧
    cacheDeleteOp { openOk := true, readOk := true, writeOk := true, deleteOk := false }
        [] ("k") = .ok [] := by
  refine ⟨((C7_storage_faults _ [] ("k") JsonVal.null 0).1 rfl).2.1,
    (C7_storage_faults _ [] ("k") JsonVal.null 0).2.1 rfl rfl,
    (C7_storage_faults _ [] ("k") JsonVal.null 0).2.2.1 rfl rfl,
    (C7_storage_faults _ [] ("k") JsonVal.null 0).2.2.2 rfl rfl⟩

/-- C7 counterexample: with a failing open, get rejects with the
propagated init error instead of resolving an absent result as the
claim states. -/
theorem C7_counterexample :
    cacheGetOp { openOk := false, readOk := true, writeOk := true, deleteOk := true }
        [] ("k") 0 = .error ("storage open failure") ∧
    cacheGetOp { openOk := false, readOk := true, writeOk := true, deleteOk := true }
        [] ("k") 0 ≠ .ok (none, []) := by
  constructor
  · rfl
  · simp [cacheGetOp, cacheInitOp]

/-- C8 (amended).  clearAll removes every row of any store regardless
of timestamps (no selective expiry), and reports the removed count in
its success notification; however the promise itself resolves with no
value (the source returns a promise of void), so the count is not the
call result. -/
theorem C8_clearAll (store : List CacheEntry) :
    (clearAll store).newStore = [] ∧
    getStats (clearAll store).newStore = (0, []) ∧
    (clearAll store).toastMsg =
      "Cleared " ++ toString store.length ++ " cached items successfully" ∧
    (clearAll store).resolvedValue = none :=
  ⟨rfl, rfl, rfl, rfl⟩

/-- C8 counterexample: clearing a two-row store resolves with no value,
not with the count 2 the claim says the result reports. -/
theorem C8_counterexample :
    (clearAll [{ key := ("a"), data := JsonVal.num 1, timestamp := 0 },
               { key := ("b"), data := JsonVal.num 2, timestamp := 999999999 }]).resolvedValue ≠
      some 2 := by
  simp [clearAll]

/-- Helper: each tier weight is positive as a rational. -/
theorem weights_pos_q (i : Importance) : (0 : ℚ) < (weights i : ℚ) := by
  cases i <;> norm_num [weights]

/-- Helper: the total weight of a nonempty result list is positive. -/
theorem sumAll_pos (results : List DocCheckResult) (h : results ≠ []) :
    0 < ((results.map (fun r => (weights r.file.importance : ℚ)))).sum := by
  apply List.sum_pos
  · intro x hx
    rcases List.mem_map.mp hx with ⟨r, _, rfl⟩
    exact weights_pos_q r.file.importance
  · simpa using h

/-- Helper: jsRound of zero is zero. -/
theorem jsRound_zero : jsRound 0 = 0 := by
  rw [jsRound, Int.floor_eq_iff]
  constructor <;> norm_num

/-- Helper: jsRound of one hundred is one hundred. -/
theorem jsRound_hundred : jsRound 100 = 100 := by
  rw [jsRound, Int.floor_eq_iff]
  constructor <;> norm_num

/-- C9.  Documentation score formula: the computed score is exactly
round(100 times the sum of tier weights of the existing descriptors
over the sum of tier weights of all descriptors in the list), with
weights critical 40, recommended 25, optional 10; an empty result list
scores 0, an all-missing list scores 0, and a nonempty all-present
list scores 100. -/
theorem C9_doc_score (results : List DocCheckResult) :
    calculateDocScore results = specDocScore results ∧
    (results = [] → calculateDocScore results = 0) ∧
    ((∀ r ∈ results, r.fileExists = false) → calculateDocScore results = 0) ∧
    (results ≠ [] → (∀ r ∈ results, r.fileExists = true) →
      calculateDocScore results = 100) := by
  have hgen : calculateDocScore results = specDocScore results := by
    by_cases h : results.length = 0
    · have hnil : results = [] := List.eq_nil_of_length_eq_zero h
      subst hnil
      have hspec : specDocScore [] = 0 := by
        simp only [specDocScore, List.filter_nil, List.map_nil, List.sum_nil,
          mul_zero, zero_div]
        exact jsRound_zero
      rw [hspec]
      simp [calculateDocScore]
    · simp only [calculateDocScore, if_neg h, specDocScore, foldl_add_eq, zero_add,
        sum_map_ite, cast_sum_map_nat]
      congr 1
      ring
  refine ⟨hgen, ?_, ?_, ?_⟩
  · intro hnil
    subst hnil
    simp [calculateDocScore]
  · intro hall
    rw [hgen, specDocScore]
    have hfil : results.filter (fun r => r.fileExists) = [] :=
      List.filter_eq_nil_iff.mpr (fun a ha => by simp [hall a ha])
    rw [hfil]
    simp only [List.map_nil, List.sum_nil, mul_zero, zero_div]
    exact jsRound_zero
  · intro hne hall
    rw [hgen, specDocScore]
    have hfil : results.filter (fun r => r.fileExists) = results :=
      List.filter_eq_self.mpr (fun a ha => hall a ha)
    rw [hfil]
    have hS := sumAll_pos results hne
    rw [mul_div_assoc, div_self (ne_of_gt hS), mul_one]
    exact jsRound_hundred

/-- C9 witness: the empty list scores 0; a single missing critical
descriptor scores 0; a single present critical descriptor scores 100. -/
theorem C9_doc_score_witness :
    calculateDocScore [] = 0 ∧
    calculateDocScore
      [{ file := { name := ("R"), description := ("d"), importance := .critical,
                   path := ("p"), alternativePaths := [] },
         fileExists := false, url := none }] = 0 ∧
    calculateDocScore
      [{ file := { name := ("R"), description := ("d"), importance := .critical,
                   path := ("p"), alternativePaths := [] },
         fileExists := true, url := none }] = 100 := by
  refine ⟨(C9_doc_score []).2.1 rfl, (C9_doc_score _).2.2.1 ?_, (C9_doc_score _).2.2.2 ?_ ?_⟩
  · intro r hr
    rw [List.mem_singleton.mp hr]
  · simp
  · intro r hr
    rw [List.mem_singleton.mp hr]

/-- C10.  Guarded averages: the issue-resolution calculator returns
null exactly when no issue carries a closing timestamp, and otherwise
the arithmetic mean in milliseconds of closing minus creation over
exactly the closed issues, whose count is then positive, so the
division is never by zero; likewise for the merge-time calculator over
the merged pull requests. -/
theorem C10_average_guards (issues : List IssueM) (prs : List PullRequestM) :
    ((∀ i ∈ issues, i.closed_at = none) → calculateIssueResolutionTime issues = none) ∧
    ((∃ i ∈ issues, i.closed_at ≠ none) →
      calculateIssueResolutionTime issues =
        some ((((issues.filter (fun i => i.closed_at.isSome)).map
            (fun i => ((i.closed_at.getD 0 - i.created_at : Int) : ℚ))).sum) /
          ((issues.filter (fun i => i.closed_at.isSome)).length : ℚ)) ∧
      0 < (issues.filter (fun i => i.closed_at.isSome)).length) ∧
    ((∀ p ∈ prs, p.merged_at = none) → calculatePRMergeTime prs = none) ∧
    ((∃ p ∈ prs, p.merged_at ≠ none) →
      calculatePRMergeTime prs =
        some ((((prs.filter (fun p => p.merged_at.isSome)).map
            (fun p => ((p.merged_at.getD 0 - p.created_at : Int) : ℚ))).sum) /
          ((prs.filter (fun p => p.merged_at.isSome)).length : ℚ)) ∧
      0 < (prs.filter (fun p => p.merged_at.isSome)).length) := by
  refine ⟨?_, ?_, ?_, ?_⟩
  · intro hall
    have hfil : issues.filter (fun i => i.closed_at.isSome) = [] :=
      List.filter_eq_nil_iff.mpr (fun a ha => by simp [hall a ha])
    simp [calculateIssueResolutionTime, hfil]
  · intro hex
    rcases hex with ⟨i0, hi0, hne⟩
    have hmem : i0 ∈ issues.filter (fun i => i.closed_at.isSome) :=
      List.mem_filter.mpr ⟨hi0, Option.isSome_iff_ne_none.mpr hne⟩
    have hpos : 0 < (issues.filter (fun i => i.closed_at.isSome)).length :=
      List.length_pos.mpr (List.ne_nil_of_mem hmem)
    have hlen : ¬((issues.filter (fun i => i.closed_at.isSome)).length = 0) := by omega
    refine ⟨?_, hpos⟩
    simp only [calculateIssueResolutionTime, if_neg hlen, foldl_add_eq, zero_add,
      cast_sum_map_int]
  · intro hall
    have hfil : prs.filter (fun p => p.merged_at.isSome) = [] :=
      List.filter_eq_nil_iff.mpr (fun a ha => by simp [hall a ha])
    simp [calculatePRMergeTime, hfil]
  · intro hex
    rcases hex with ⟨p0, hp0, hne⟩
    have hmem : p0 ∈ prs.filter (fun p => p.merged_at.isSome) :=
      List.mem_filter.mpr ⟨hp0, Option.isSome_iff_ne_none.mpr hne⟩
    have hpos : 0 < (prs.filter (fun p => p.merged_at.isSome)).length :=
      List.length_pos.mpr (List.ne_nil_of_mem hmem)
    have hlen : ¬((prs.filter (fun p => p.merged_at.isSome)).length = 0) := by omega
    refine ⟨?_, hpos⟩
    simp only [calculatePRMergeTime, if_neg hlen, foldl_add_eq, zero_add,
      cast_sum_map_int]

/-- C10 witness: a list with one closed and one open issue averages
over just the closed one; an all-open issue list and an all-unmerged
pull-request list both yield null; a merged pull request averages over
the merged ones. -/
theorem C10_average_guards_witness :
    calculateIssueResolutionTime
      [{ created_at := 0, closed_at := some 1000 }, { created_at := 0, closed_at := none }] =
      some 1000 ∧
    calculateIssueResolutionTime [{ created_at := 5, closed_at := none }] = none ∧
    calculatePRMergeTime [{ created_at := 7, merged_at := none }] = none ∧
    calculatePRMergeTime [{ created_at := 0, merged_at := some 600 }] = some 600 := by
  have h1 := (C10_average_guards
    [{ created_at := 0, closed_at := some 1000 }, { created_at := 0, closed_at := none }]
    []).2.1 ⟨{ created_at := 0, closed_at := some 1000 }, by simp, by simp⟩
  have h2 := (C10_average_guards [{ created_at := 5, closed_at := none }] []).1
    (by intro i hi; rw [List.mem_singleton.mp hi])
  have h3 := (C10_average_guards [] [{ created_at := 7, merged_at := none }]).2.2.1
    (by intro p hp; rw [List.mem_singleton.mp hp])
  have h4 := (C10_average_guards [] [{ created_at := 0, merged_at := some 600 }]).2.2.2
    ⟨{ created_at := 0, merged_at := some 600 }, by simp, by simp⟩
  refine ⟨?_, h2, h3, ?_⟩
  · rw [h1.1]
    norm_num
  · rw [h4.1]
    norm_num

end Gitalytics
